import Mathlib

/-!
Verification development for the `whois-proxy` repository.

The repository is a small Node.js/Express WHOIS proxy.  We give a shallow
embedding of its pure logic:

* JS strings are modelled as `List Char` (`JStr`);
* the three field extractors (`extractCreationDate`, `extractExpirationDate`,
  `extractRegistrar` of `whois-proxy.js` lines 110-141, identical in the
  fallback variant) are modelled precisely, including the JavaScript regex
  semantics they rely on: leftmost-position matching, alternatives tried in
  order at each position, `.` excluding line terminators, case-insensitive
  literal matching, and greedy `(.+)` capture followed by `String.trim`;
* the two request handlers (`whois-proxy.js` and the fallback variant with the
  system `whois` command) are modelled as pure functions over an explicit
  cache and an environment recording the outcomes of the external lookups.
-/

namespace WhoisProxy

/-- JS strings are modelled as lists of characters. -/
abbrev JStr := List Char

/-- A JavaScript value as far as the extractors can observe it:
either a string or one of the non-string shapes. -/
inductive JSValue where
  | str (s : JStr)
  | undef
  | nullv
  | num (n : Int)
  | boolean (b : Bool)
deriving DecidableEq

/-- Models the JavaScript test `typeof v === "string"`. -/
def JSValue.isString : JSValue → Bool
  | .str _ => true
  | _ => false

/-- ASCII-only lower-casing, as used by JavaScript case-insensitive regex
matching of ASCII pattern characters (non-ASCII input characters never
case-fold onto ASCII pattern characters in non-unicode `/i` mode). -/
def asciiLower (c : Char) : Char :=
  if 'A' ≤ c ∧ c ≤ 'Z' then Char.ofNat (c.toNat + 32) else c

/-- JavaScript regex `.` (without the `s` flag) matches every character except
the four line terminators. -/
def dotMatch (c : Char) : Bool :=
  !(c = '\n' || c = '\r' || c.toNat = 0x2028 || c.toNat = 0x2029)

/-- The character set removed by JavaScript `String.prototype.trim`
(WhiteSpace and LineTerminator code points). -/
def jsWhitespace (c : Char) : Bool :=
  c = '\t' || c = '\n' || c.toNat = 0xb || c.toNat = 0xc || c = '\r' || c = ' ' ||
  c.toNat = 0xa0 || c.toNat = 0x1680 ||
  (0x2000 ≤ c.toNat && c.toNat ≤ 0x200a) ||
  c.toNat = 0x2028 || c.toNat = 0x2029 || c.toNat = 0x202f || c.toNat = 0x205f ||
  c.toNat = 0x3000 || c.toNat = 0xfeff

/-- JavaScript `String.prototype.trim`. -/
def jsTrim (s : JStr) : JStr :=
  ((s.dropWhile jsWhitespace).reverse.dropWhile jsWhitespace).reverse

/-- Test `startsWithCI pat s` : does `s` start with the literal `pat`, compared
case-insensitively in the ASCII range (the JS `/i` flag on an ASCII literal)? -/
def startsWithCI : List Char → List Char → Bool
  | [], _ => true
  | _ :: _, [] => false
  | p :: ps, c :: cs => (asciiLower c == asciiLower p) && startsWithCI ps cs

/-- Test `containsCI pat s` : does the literal `pat` occur case-insensitively
anywhere in `s`? -/
def containsCI (pat : List Char) : List Char → Bool
  | [] => startsWithCI pat []
  | c :: rest => startsWithCI pat (c :: rest) || containsCI pat rest

/-- Exact (case-sensitive) prefix test on character lists. -/
def listStarts : List Char → List Char → Bool
  | [], _ => true
  | _ :: _, [] => false
  | p :: ps, c :: cs => (p == c) && listStarts ps cs

/-- Exact (case-sensitive) substring occurrence test. -/
def subOccurs (pat : List Char) : List Char → Bool
  | [] => listStarts pat []
  | c :: rest => listStarts pat (c :: rest) || subOccurs pat rest

/-- Attempt to match the regex fragment `lab: (.+)` (with `/i`) at the very
start of `s`: the literal label, then `": "`, then a greedy non-empty capture
of non-line-terminator characters.  Returns the captured group. -/
def matchLabelAt (lab s : List Char) : Option (List Char) :=
  match startsWithCI (lab ++ [':', ' ']) s, (s.drop (lab.length + 2)).takeWhile dotMatch with
  | true, c :: cs => some (c :: cs)
  | _, _ => none

/-- Try a list of label alternatives, in order, at the start of `s`
(JS alternation `(?:A|B|...)` at a fixed position). -/
def tryLabels (alts : List (List Char)) (s : List Char) : Option (List Char) :=
  match alts with
  | [] => none
  | lab :: rest =>
    match matchLabelAt lab s with
    | some cap => some cap
    | none => tryLabels rest s

/-- JS `string.match(/(?:A|B|...): (.+)/i)`: scan positions left to right,
returning the capture of the first position where some alternative matches. -/
def regexSearch (alts : List (List Char)) : List Char → Option (List Char)
  | [] => none
  | c :: rest =>
    match tryLabels alts (c :: rest) with
    | some cap => some cap
    | none => regexSearch alts rest

/-- The creation-date label alternatives, in source order
(`whois-proxy.js` line 112). -/
def creationLabels : List (List Char) :=
  ["Creation Date".data, "Registered on".data, "Registration Date".data,
   "Registration Time".data, "Created On".data, "create-date".data]

/-- The expiration-date label alternatives, in source order
(`whois-proxy.js` line 119). -/
def expirationLabels : List (List Char) :=
  ["Registry Expiry Date".data, "Expiration Date".data, "Expiry Date".data,
   "Registrar Registration Expiration Date".data, "Expiration Time".data,
   "paid-till".data, "valid-until".data]

/-- The registrar label alternatives, in the order the three separate regexes
are tried (`whois-proxy.js` lines 128-138). -/
def registrarLabels : List (List Char) :=
  ["Registrar".data, "Sponsoring Registrar".data, "Registrar Name".data]

/-- Function `extractCreationDate` of `whois-proxy.js` lines 110-115. -/
def extractCreationDate : JSValue → JStr
  | .str s =>
    match regexSearch creationLabels s with
    | some cap => jsTrim cap
    | none => "Unknown".data
  | _ => "Invalid data".data

/-- Function `extractExpirationDate` of `whois-proxy.js` lines 117-122. -/
def extractExpirationDate : JSValue → JStr
  | .str s =>
    match regexSearch expirationLabels s with
    | some cap => jsTrim cap
    | none => "Unknown".data
  | _ => "Invalid data".data

/-- Function `extractRegistrar` of `whois-proxy.js` lines 124-141: three regexes tried
in sequence over the whole text. -/
def extractRegistrar : JSValue → JStr
  | .str s =>
    match regexSearch ["Registrar".data] s with
    | some cap => jsTrim cap
    | none =>
      match regexSearch ["Sponsoring Registrar".data] s with
      | some cap => jsTrim cap
      | none =>
        match regexSearch ["Registrar Name".data] s with
        | some cap => jsTrim cap
        | none => "Unknown".data
  | _ => "Invalid data".data

/-- Splitting a text into its lines (at `'\n'`), used to state claims that
speak about "a line of the form `Label: value`". -/
def splitLines : List Char → List (List Char)
  | [] => [[]]
  | c :: rest =>
    if c = '\n' then [] :: splitLines rest
    else
      match splitLines rest with
      | [] => [[c]]
      | l :: ls => (c :: l) :: ls

/-! ### The request handlers

Two handler variants exist in the repository:

* `handlerV2` models `whois-proxy.js` lines 26-108: single library lookup,
  timeout failures mapped to 504, others to 500, success cached and returned;
* `handlerFB` models the fallback variant (`src/unnamed/part_001` lines
  55-120): on library failure the domain is checked against
  `/^[a-zA-Z0-9.-]+$/`, a space test and a length bound before the system
  `whois` command is attempted; a double failure yields a 500 response
  bundling both error texts.

External effects (the library lookup, the system command, a possible
exception inside the `try` block of `processWhoisData`) are supplied by an
environment value; the cache is threaded explicitly. -/

/-- The `result` object built on the success path
(`whois-proxy.js` lines 89-95, `part_001` lines 37-43). -/
structure LookupResult where
  domain : JStr
  creationDate : JStr
  expirationDate : JStr
  registrar : JStr
  rawData : JSValue
deriving DecidableEq

/-- A JSON value appearing in an error-response body. -/
inductive JVal where
  | jstr (s : JStr)
  | jnull
deriving DecidableEq

/-- A response body: either the serialized success `result` object or an
error object given as an ordered list of key/value fields. -/
inductive Body where
  | success (r : LookupResult)
  | errObj (fields : List (String × JVal))
deriving DecidableEq

/-- An HTTP response: status code plus JSON body. -/
structure Resp where
  status : Nat
  body : Body
deriving DecidableEq

/-- The node-cache instance, modelled as an association list; the most
recent `set` for a key shadows older entries, as in `NodeCache`.
TTL expiry is not modelled (no claim in scope depends on it). -/
abbrev Cache := List (JStr × LookupResult)

/-- Models `cache.get(key)`. -/
def cacheGet : Cache → JStr → Option LookupResult
  | [], _ => none
  | (k, v) :: rest, key => if k = key then some v else cacheGet rest key

/-- Models `cache.set(key, value)`. -/
def cacheSet (c : Cache) (k : JStr) (v : LookupResult) : Cache := (k, v) :: c

/-- An error object from the whois library: `message` and `code`, with the
empty string standing for an absent/falsy property. -/
structure LibErr where
  message : JStr
  code : JStr
deriving DecidableEq

/-- Details text of `part_001` lines 73-74: `err.message` or the default
text "Unknown error during node-whois lookup", plus an optional
`(Code: ...)` suffix. -/
def libErrDetailsFB (e : LibErr) : JStr :=
  (if e.message = [] then "Unknown error during node-whois lookup".data else e.message) ++
  (if e.code = [] then [] else " (Code: ".data ++ e.code ++ ")".data)

/-- Details text of `whois-proxy.js` lines 60-68: the default text
"WHOIS lookup failed" replaced by `err.message` when present, plus an
optional code suffix. -/
def libErrDetailsV2 (e : LibErr) : JStr :=
  (if e.message = [] then "WHOIS lookup failed".data else e.message) ++
  (if e.code = [] then [] else " (Code: ".data ++ e.code ++ ")".data)

/-- Timeout test of `whois-proxy.js` line 70 and `part_001` line 77: the
message is present and either its lowercase form contains "timeout" or the
code is ETIMEDOUT. -/
def isTimeoutErr (e : LibErr) : Bool :=
  !e.message.isEmpty &&
    (subOccurs "timeout".data (e.message.map asciiLower) || e.code == "ETIMEDOUT".data)

/-- The success `result` object. -/
def mkResult (domain : JStr) (raw : JSValue) : LookupResult :=
  ⟨domain, extractCreationDate raw, extractExpirationDate raw, extractRegistrar raw, raw⟩

/-- Function `processWhoisData` (`part_001` lines 26-52); the success branch of
`whois-proxy.js` lines 82-105 is the same logic inline.  `throwMsg` models
the `catch (processingError)` branch: `some m` means an exception with
message `m` was raised inside the `try` block. -/
def processWhoisData (raw : JSValue) (domainName : JStr) (c : Cache)
    (throwMsg : Option JStr) : Resp × Cache :=
  match throwMsg with
  | some m =>
    (⟨500, .errObj [("error", .jstr "Error processing WHOIS data".data),
                    ("details", .jstr m)]⟩, c)
  | none =>
    let r := mkResult domainName raw
    (⟨200, .success r⟩, cacheSet c domainName r)

/-- Outcome of a `whois.lookup` call, supplied by the environment. -/
inductive LookupRes where
  | ok (data : JSValue)
  | fail (e : LibErr)
deriving DecidableEq

/-- Environment for the `whois-proxy.js` handler. -/
structure EnvV2 where
  lookup : LookupRes
  procThrow : Option JStr
deriving DecidableEq

/-- The text `JSON.stringify(whoisOptions)` for the fixed options of
`whois-proxy.js` lines 43-51. -/
def whoisOptionsJson : JStr :=
  "\x7b\"timeout\":20000,\"server\":\"whois.pir.org\",\"follow\":0\x7d".data

/-- The `details` text of the 504 response (`whois-proxy.js` line 71). -/
def timeoutDetailsV2 (d : JStr) : JStr :=
  "WHOIS lookup timed out after 20000ms using options ".data ++
    whoisOptionsJson ++ ": ".data ++ d

/-- Observable outcome of one `whois-proxy.js` request: the response, the
cache afterwards, and whether `whois.lookup` was called. -/
structure OutV2 where
  resp : Resp
  cache : Cache
  lookupInvoked : Bool
deriving DecidableEq

/-- The `app.get('/whois/:domain')` handler of `whois-proxy.js`
(lines 26-108). -/
def handlerV2 (domain : JStr) (c : Cache) (env : EnvV2) : OutV2 :=
  match cacheGet c domain with
  | some r => ⟨⟨200, .success r⟩, c, false⟩
  | none =>
    match env.lookup with
    | .fail e =>
      let details := libErrDetailsV2 e
      if isTimeoutErr e then
        ⟨⟨504, .errObj [("error", .jstr "WHOIS lookup timed out from application".data),
                        ("details", .jstr (timeoutDetailsV2 details))]⟩, c, true⟩
      else
        ⟨⟨500, .errObj [("error", .jstr "WHOIS lookup failed".data),
                        ("details", .jstr details)]⟩, c, true⟩
    | .ok data =>
      let rc := processWhoisData data domain c env.procThrow
      ⟨rc.1, rc.2, true⟩

/-- Outcome of the `execFile` system-command call: `(systemCmdError,
stdout, stderr)`; on failure the error message and the `stderr` text are
observed (`part_001` lines 93-112). -/
inductive SysOutcome where
  | ok (stdoutTxt : JStr)
  | fail (message : JStr) (stderrTxt : JStr)
deriving DecidableEq

/-- Environment for the fallback handler. -/
structure EnvFB where
  lib : LookupRes
  sys : SysOutcome
  procThrow : Option JStr
deriving DecidableEq

/-- A character allowed by `/^[a-zA-Z0-9.-]+$/`. -/
def isAllowedChar (c : Char) : Bool :=
  ('a' ≤ c && c ≤ 'z') || ('A' ≤ c && c ≤ 'Z') || ('0' ≤ c && c ≤ '9') ||
    c = '.' || c = '-'

/-- The allow-list check of `part_001` line 84:
`/^[a-zA-Z0-9.-]+$/.test(domain) && !domain.includes(' ') &&
domain.length <= 255`. -/
def validForSystem (domain : JStr) : Bool :=
  !domain.isEmpty && domain.all isAllowedChar && !domain.contains ' ' &&
    decide (domain.length ≤ 255)

/-- Observable outcome of one fallback-handler request. -/
structure OutFB where
  resp : Resp
  cache : Cache
  libInvoked : Bool
  sysInvoked : Bool
deriving DecidableEq

/-- The `app.get('/whois/:domain')` handler of the fallback variant
(`part_001` lines 55-120). -/
def handlerFB (domain : JStr) (c : Cache) (env : EnvFB) : OutFB :=
  match cacheGet c domain with
  | some r => ⟨⟨200, .success r⟩, c, false, false⟩
  | none =>
    match env.lib with
    | .ok data =>
      let rc := processWhoisData data domain c env.procThrow
      ⟨rc.1, rc.2, true, false⟩
    | .fail e =>
      let libDetails := libErrDetailsFB e
      if validForSystem domain then
        match env.sys with
        | .ok stdoutTxt =>
          let rc := processWhoisData (.str stdoutTxt) domain c env.procThrow
          ⟨rc.1, rc.2, true, true⟩
        | .fail msg stderrTxt =>
          ⟨⟨500, .errObj
              [("error", .jstr "WHOIS lookup failed using both library and system command".data),
               ("library_error", .jstr libDetails),
               ("system_command_error", .jstr msg),
               ("system_command_stderr",
                 if stderrTxt.isEmpty then .jnull else .jstr (jsTrim stderrTxt))]⟩,
            c, true, true⟩
      else
        ⟨⟨400, .errObj [("error", .jstr "Invalid domain format for system command".data)]⟩,
          c, true, false⟩

/-- Does a response body (as a JSON object) have a field named `k`? -/
def bodyHasKey : Body → String → Bool
  | .success _, k => ["domain", "creationDate", "expirationDate", "registrar", "rawData"].contains k
  | .errObj fs, k => fs.any (fun f => f.1 == k)

/-- The value of field `k` of an error-response body. -/
def errField : Body → String → Option JVal
  | .errObj fs, k => (fs.find? (fun f => f.1 == k)).map (fun f => f.2)
  | .success _, _ => none

-- sanity checks of the embedding on concrete inputs
example : extractRegistrar (.str "Registrar: Example, Inc.  ".data) = "Example, Inc.".data := by decide
example : extractCreationDate (.str "Creation Date: 2020-01-15T00:00:00Z".data) = "2020-01-15T00:00:00Z".data := by decide
example : extractExpirationDate (.str "no labels".data) = "Unknown".data := by decide
example : extractCreationDate (.num 3) = "Invalid data".data := by decide
example : extractRegistrar (.str "Sponsoring Registrar: Y\nRegistrar: X".data) = "Y".data := by decide
example : extractCreationDate (.str "Registration Time: 2001\nCreation Date: 2002".data) = "2001".data := by decide
example : splitLines "a\nbc".data = ["a".data, "bc".data] := by decide

/-! ### Lemmas about the regex-search embedding -/

lemma startsWithCI_nil_right (p : List Char) (hp : p ≠ []) : startsWithCI p [] = false := by
  cases p with
  | nil => exact absurd rfl hp
  | cons a ps => rfl

lemma matchLabelAt_nil (lab : List Char) : matchLabelAt lab [] = none := by
  have h : startsWithCI (lab ++ [':', ' ']) [] = false := by
    cases lab <;> rfl
  simp [matchLabelAt, h]

lemma tryLabels_nil (alts : List (List Char)) : tryLabels alts [] = none := by
  induction alts with
  | nil => rfl
  | cons lab rest ih => simp [tryLabels, matchLabelAt_nil, ih]

lemma startsWithCI_of_append (p q s : List Char) (h : startsWithCI (p ++ q) s = true) :
    startsWithCI p s = true := by
  induction p generalizing s with
  | nil => rfl
  | cons a ps ih =>
    cases s with
    | nil => simp [startsWithCI] at h
    | cons c cs =>
      simp only [List.cons_append, startsWithCI, Bool.and_eq_true] at h ⊢
      exact ⟨h.1, ih cs h.2⟩

lemma matchLabelAt_eq_none (lab s : List Char) (h : startsWithCI lab s = false) :
    matchLabelAt lab s = none := by
  have h2 : startsWithCI (lab ++ [':', ' ']) s = false := by
    cases hst : startsWithCI (lab ++ [':', ' ']) s with
    | false => rfl
    | true =>
      have := startsWithCI_of_append lab [':', ' '] s hst
      rw [h] at this
      exact absurd this (by simp)
  simp [matchLabelAt, h2]

lemma tryLabels_eq_none (alts : List (List Char)) (s : List Char)
    (h : ∀ lab ∈ alts, matchLabelAt lab s = none) : tryLabels alts s = none := by
  induction alts with
  | nil => rfl
  | cons lab rest ih =>
    have h1 := h lab (List.mem_cons_self lab rest)
    simp [tryLabels, h1, ih fun l hl => h l (List.mem_cons_of_mem _ hl)]

lemma regexSearch_eq_none (alts : List (List Char)) (s : List Char)
    (h : ∀ lab ∈ alts, containsCI lab s = false) : regexSearch alts s = none := by
  induction s with
  | nil => rfl
  | cons c rest ih =>
    have htry : tryLabels alts (c :: rest) = none := by
      apply tryLabels_eq_none
      intro lab hlab
      have hc := h lab hlab
      simp only [containsCI, Bool.or_eq_false_iff] at hc
      exact matchLabelAt_eq_none lab _ hc.1
    have hrest : ∀ lab ∈ alts, containsCI lab rest = false := by
      intro lab hlab
      have hc := h lab hlab
      simp only [containsCI, Bool.or_eq_false_iff] at hc
      exact hc.2
    simp [regexSearch, htry, ih hrest]

lemma startsWithCI_self_append (p t : List Char) : startsWithCI p (p ++ t) = true := by
  induction p with
  | nil => rfl
  | cons a ps ih => simp [startsWithCI, ih]

lemma takeWhile_append_all (x rest : List Char)
    (hx : ∀ c ∈ x, dotMatch c = true)
    (hrest : rest = [] ∨ ∃ c t, rest = c :: t ∧ dotMatch c = false) :
    (x ++ rest).takeWhile dotMatch = x := by
  induction x with
  | nil =>
    rcases hrest with h | ⟨c, t, hct, hc⟩
    · simp [h]
    · simp [hct, List.takeWhile_cons, hc]
  | cons a xs ih =>
    have ha : dotMatch a = true := hx a (by simp)
    simp [List.takeWhile_cons, ha, ih fun c hc => hx c (by simp [hc])]

lemma matchLabelAt_exact (lab x rest : List Char) (hx : x ≠ [])
    (hxd : ∀ c ∈ x, dotMatch c = true)
    (hrest : rest = [] ∨ ∃ c t, rest = c :: t ∧ dotMatch c = false) :
    matchLabelAt lab ((lab ++ [':', ' ']) ++ (x ++ rest)) = some x := by
  have h1 : startsWithCI (lab ++ [':', ' ']) ((lab ++ [':', ' ']) ++ (x ++ rest)) = true :=
    startsWithCI_self_append _ _
  have h2 : (((lab ++ [':', ' ']) ++ (x ++ rest)).drop (lab.length + 2)) = x ++ rest := by
    have hl : lab.length + 2 = (lab ++ [':', ' ']).length := by simp
    rw [hl, List.drop_left]
  have h3 : (x ++ rest).takeWhile dotMatch = x := takeWhile_append_all x rest hxd hrest
  cases x with
  | nil => exact absurd rfl hx
  | cons a xs =>
    simp only [matchLabelAt]
    rw [h1, h2, h3]

lemma regexSearch_eq_some_of_first (alts : List (List Char)) (s : List Char) (n : Nat)
    (cap : List Char)
    (hb : ∀ i, i < n → tryLabels alts (s.drop i) = none)
    (hn : tryLabels alts (s.drop n) = some cap) :
    regexSearch alts s = some cap := by
  induction n generalizing s with
  | zero =>
    cases s with
    | nil =>
      rw [List.drop_nil, tryLabels_nil] at hn
      exact Option.noConfusion hn
    | cons c rest =>
      have hn' : tryLabels alts (c :: rest) = some cap := hn
      simp [regexSearch, hn']
  | succ n ih =>
    cases s with
    | nil =>
      rw [List.drop_nil, tryLabels_nil] at hn
      exact Option.noConfusion hn
    | cons c rest =>
      have h0 : tryLabels alts (c :: rest) = none := hb 0 (Nat.succ_pos n)
      have hb' : ∀ i, i < n → tryLabels alts (rest.drop i) = none := by
        intro i hi
        have := hb (i + 1) (Nat.succ_lt_succ hi)
        simpa using this
      have hn' : tryLabels alts (rest.drop n) = some cap := by simpa using hn
      simp [regexSearch, h0, ih rest hb' hn']

lemma tryLabels_singleton (lab t : List Char) :
    tryLabels [lab] t = matchLabelAt lab t := by
  cases h : matchLabelAt lab t <;> simp [tryLabels, h]

lemma matchLabelAt_some (lab t cap : List Char) (h : matchLabelAt lab t = some cap) :
    startsWithCI (lab ++ [':', ' ']) t = true ∧
    (t.drop (lab.length + 2)).takeWhile dotMatch = cap ∧ cap ≠ [] := by
  unfold matchLabelAt at h
  cases hs : startsWithCI (lab ++ [':', ' ']) t with
  | false =>
    rw [hs] at h
    cases htw : (t.drop (lab.length + 2)).takeWhile dotMatch with
    | nil => rw [htw] at h; exact Option.noConfusion h
    | cons c cs => rw [htw] at h; exact Option.noConfusion h
  | true =>
    rw [hs] at h
    cases htw : (t.drop (lab.length + 2)).takeWhile dotMatch with
    | nil => rw [htw] at h; exact Option.noConfusion h
    | cons c cs =>
      rw [htw] at h
      have hcc : c :: cs = cap := Option.some.inj h
      exact ⟨rfl, hcc, by rw [← hcc]; exact List.cons_ne_nil c cs⟩

lemma matchLabelAt_some_intro (lab t cap : List Char)
    (h1 : startsWithCI (lab ++ [':', ' ']) t = true)
    (h2 : (t.drop (lab.length + 2)).takeWhile dotMatch = cap) (hc : cap ≠ []) :
    matchLabelAt lab t = some cap := by
  unfold matchLabelAt
  rw [h1, h2]
  cases cap with
  | nil => exact absurd rfl hc
  | cons c cs => rfl

lemma startsWithCI_drop (p q t : List Char) (h : startsWithCI (p ++ q) t = true) :
    startsWithCI q (t.drop p.length) = true := by
  induction p generalizing t with
  | nil => simpa using h
  | cons a ps ih =>
    cases t with
    | nil => simp [startsWithCI] at h
    | cons c cs =>
      simp only [List.cons_append, startsWithCI, Bool.and_eq_true] at h
      simpa using ih cs h.2

lemma regexSearch_eq_none_imp (alts : List (List Char)) (s : List Char)
    (h : regexSearch alts s = none) : ∀ i, tryLabels alts (s.drop i) = none := by
  induction s with
  | nil => intro i; rw [List.drop_nil]; exact tryLabels_nil alts
  | cons c rest ih =>
    intro i
    cases ht : tryLabels alts (c :: rest) with
    | some cap => simp [regexSearch, ht] at h
    | none =>
      cases i with
      | zero => exact ht
      | succ i =>
        have h2 : regexSearch alts rest = none := by simpa [regexSearch, ht] using h
        simpa using ih h2 i

lemma regexSearch_some_exists (alts : List (List Char)) (s cap : List Char)
    (h : regexSearch alts s = some cap) :
    ∃ i, tryLabels alts (s.drop i) = some cap := by
  induction s with
  | nil => exact Option.noConfusion h
  | cons c rest ih =>
    cases ht : tryLabels alts (c :: rest) with
    | some cap2 =>
      have hc : cap2 = cap := by simpa [regexSearch, ht] using h
      exact ⟨0, by rw [hc] at ht; exact ht⟩
    | none =>
      have h2 : regexSearch alts rest = some cap := by simpa [regexSearch, ht] using h
      obtain ⟨i, hi⟩ := ih h2
      exact ⟨i + 1, by simpa using hi⟩

/-- Because `Registrar: ` occurs inside every match of `Sponsoring
Registrar: `, whenever the second registrar regex matches somewhere the
first one does too: the `Sponsoring Registrar` regex never decides the
result of `extractRegistrar`. -/
lemma sponsoring_implies_registrar (s cap : JStr)
    (h : regexSearch ["Sponsoring Registrar".data] s = some cap) :
    regexSearch ["Registrar".data] s ≠ none := by
  intro hnone
  obtain ⟨i, hi⟩ := regexSearch_some_exists _ _ _ h
  rw [tryLabels_singleton] at hi
  obtain ⟨hs1, hs2, hcne⟩ := matchLabelAt_some _ _ _ hi
  have hdec : "Sponsoring Registrar".data ++ [':', ' '] =
      "Sponsoring ".data ++ ("Registrar".data ++ [':', ' ']) := by decide
  rw [hdec] at hs1
  have hs1d := startsWithCI_drop _ _ _ hs1
  have hlen1 : ("Sponsoring ".data : List Char).length = 11 := by decide
  have hlen2 : ("Registrar".data : List Char).length + 2 = 11 := by decide
  have hlen3 : ("Sponsoring Registrar".data : List Char).length + 2 = 22 := by decide
  rw [hlen1] at hs1d
  have hcap : (((s.drop i).drop 11).drop (("Registrar".data : List Char).length + 2)).takeWhile
      dotMatch = cap := by
    rw [hlen2, List.drop_drop]
    rw [hlen3] at hs2
    exact hs2
  have hm2 : matchLabelAt "Registrar".data ((s.drop i).drop 11) = some cap :=
    matchLabelAt_some_intro _ _ _ hs1d hcap hcne
  have hall := regexSearch_eq_none_imp _ _ hnone (i + 11)
  rw [← List.drop_drop, tryLabels_singleton, hm2] at hall
  exact Option.noConfusion hall

/-! ### Claim C1 -/

/-- Claim C1 counterexample: the input `"Sponsoring Registrar: Y\nRegistrar:
X"` contains the line `Registrar: X`, yet `extractRegistrar` returns `"Y"`
(the `/Registrar: (.+)/i` regex matches first inside the earlier
`Sponsoring Registrar` line), not `X` trimmed. -/
theorem C1_counterexample :
    ("Registrar: X".data ∈ splitLines "Sponsoring Registrar: Y\nRegistrar: X".data) ∧
    extractRegistrar (.str "Sponsoring Registrar: Y\nRegistrar: X".data) = "Y".data ∧
    "Y".data ≠ jsTrim "X".data := by
  refine ⟨by decide, by decide, by decide⟩

/-- Claim C1 (amended): if the input contains `Registrar: X` at some
position — `X` a non-empty run of non-line-terminator characters reaching
the end of its line — and the `/Registrar: (.+)/i` pattern matches at no
earlier position, then `extractRegistrar` returns `X` trimmed. -/
theorem C1_registrar_extraction (s : JStr) (n : Nat) (x rest : JStr)
    (hdrop : s.drop n = "Registrar: ".data ++ (x ++ rest))
    (hx : x ≠ []) (hxd : ∀ c ∈ x, dotMatch c = true)
    (hrest : rest = [] ∨ ∃ c t, rest = c :: t ∧ dotMatch c = false)
    (hb : ∀ i, i < n → tryLabels ["Registrar".data] (s.drop i) = none) :
    extractRegistrar (.str s) = jsTrim x := by
  have hdecomp : ("Registrar: ".data : List Char) = "Registrar".data ++ [':', ' '] := by decide
  have hm : matchLabelAt "Registrar".data (s.drop n) = some x := by
    rw [hdrop, hdecomp]
    exact matchLabelAt_exact _ x rest hx hxd hrest
  have ht : tryLabels ["Registrar".data] (s.drop n) = some x := by
    rw [tryLabels_singleton]; exact hm
  have hs := regexSearch_eq_some_of_first ["Registrar".data] s n x hb ht
  simp [extractRegistrar, hs]

/-- Witness for C1: a concrete instance of the amended claim. -/
theorem C1_registrar_extraction_witness :
    extractRegistrar (.str "ab\nRegistrar: hi\n".data) = jsTrim "hi".data :=
  C1_registrar_extraction "ab\nRegistrar: hi\n".data 3 "hi".data "\n".data
    (by decide) (by decide) (by decide)
    (Or.inr ⟨'\n', [], by decide, by decide⟩) (by decide)

/-! ### Claim C2 -/

/-- Claim C2: for every non-string input, each of the three extractors
returns the string `"Invalid data"` (`whois-proxy.js` lines 111, 118, 125). -/
theorem C2_nonstring_invalid (v : JSValue) (h : v.isString = false) :
    extractCreationDate v = "Invalid data".data ∧
    extractExpirationDate v = "Invalid data".data ∧
    extractRegistrar v = "Invalid data".data := by
  cases v with
  | str s => exact absurd h (by simp [JSValue.isString])
  | undef => exact ⟨rfl, rfl, rfl⟩
  | nullv => exact ⟨rfl, rfl, rfl⟩
  | num n => exact ⟨rfl, rfl, rfl⟩
  | boolean b => exact ⟨rfl, rfl, rfl⟩

/-- Witness for C2 at the concrete non-string input `42`. -/
theorem C2_nonstring_invalid_witness :
    extractCreationDate (.num 42) = "Invalid data".data ∧
    extractExpirationDate (.num 42) = "Invalid data".data ∧
    extractRegistrar (.num 42) = "Invalid data".data :=
  C2_nonstring_invalid (.num 42) rfl

/-! ### Claim C3 -/

/-- Claim C3: a string containing no recognized creation-date label
(respectively expiration-date / registrar label), even case-insensitively,
yields `"Unknown"` for that field. -/
theorem C3_no_label_unknown (s : JStr) :
    ((∀ lab ∈ creationLabels, containsCI lab s = false) →
      extractCreationDate (.str s) = "Unknown".data) ∧
    ((∀ lab ∈ expirationLabels, containsCI lab s = false) →
      extractExpirationDate (.str s) = "Unknown".data) ∧
    ((∀ lab ∈ registrarLabels, containsCI lab s = false) →
      extractRegistrar (.str s) = "Unknown".data) := by
  refine ⟨fun h => ?_, fun h => ?_, fun h => ?_⟩
  · simp [extractCreationDate, regexSearch_eq_none creationLabels s h]
  · simp [extractExpirationDate, regexSearch_eq_none expirationLabels s h]
  · have h1 : regexSearch ["Registrar".data] s = none := by
      refine regexSearch_eq_none _ _ ?_
      intro lab hlab
      rw [List.mem_singleton] at hlab
      subst hlab
      exact h _ (by decide)
    have h2 : regexSearch ["Sponsoring Registrar".data] s = none := by
      refine regexSearch_eq_none _ _ ?_
      intro lab hlab
      rw [List.mem_singleton] at hlab
      subst hlab
      exact h _ (by decide)
    have h3 : regexSearch ["Registrar Name".data] s = none := by
      refine regexSearch_eq_none _ _ ?_
      intro lab hlab
      rw [List.mem_singleton] at hlab
      subst hlab
      exact h _ (by decide)
    simp [extractRegistrar, h1, h2, h3]

/-- Witness for C3 on a concrete label-free input. -/
theorem C3_no_label_unknown_witness :
    extractCreationDate (.str "just some text".data) = "Unknown".data ∧
    extractExpirationDate (.str "just some text".data) = "Unknown".data ∧
    extractRegistrar (.str "just some text".data) = "Unknown".data :=
  ⟨(C3_no_label_unknown "just some text".data).1 (by decide),
   (C3_no_label_unknown "just some text".data).2.1 (by decide),
   (C3_no_label_unknown "just some text".data).2.2 (by decide)⟩

/-! ### Claim C4 -/

/-- Claim C4 counterexample: the text contains lines for both the
`Registration Time` alternative (4th in the list) and the `Creation Date`
alternative (1st in the list), but the extractor returns the value of the
line appearing first in the text (`"2001"`), not the value of the
first-listed alternative (`"2002"`). -/
theorem C4_counterexample :
    ("Creation Date: 2002".data ∈
      splitLines "Registration Time: 2001\nCreation Date: 2002".data) ∧
    ("Registration Time: 2001".data ∈
      splitLines "Registration Time: 2001\nCreation Date: 2002".data) ∧
    extractCreationDate (.str "Registration Time: 2001\nCreation Date: 2002".data) =
      "2001".data ∧
    "2001".data ≠ "2002".data := by
  refine ⟨by decide, by decide, by decide, by decide⟩

/-- Claim C4 (amended): for the creation and expiration fields the match at
the leftmost position of the text wins (alternatives are tried in listed
order only at each single position); for the registrar field the three
patterns are tried in listed order over the whole text — the first pattern
also matching inside `Sponsoring Registrar` lines, so the second pattern
never decides the result — and within the deciding pattern the leftmost
occurrence wins. -/
theorem C4_leftmost_match_wins :
    (∀ s n cap, (∀ i, i < n → tryLabels creationLabels (s.drop i) = none) →
      tryLabels creationLabels (s.drop n) = some cap →
      extractCreationDate (.str s) = jsTrim cap) ∧
    (∀ s n cap, (∀ i, i < n → tryLabels expirationLabels (s.drop i) = none) →
      tryLabels expirationLabels (s.drop n) = some cap →
      extractExpirationDate (.str s) = jsTrim cap) ∧
    (∀ s cap, regexSearch ["Registrar".data] s = some cap →
      extractRegistrar (.str s) = jsTrim cap) ∧
    (∀ s cap, regexSearch ["Sponsoring Registrar".data] s = some cap →
      regexSearch ["Registrar".data] s ≠ none) ∧
    (∀ s cap, regexSearch ["Registrar".data] s = none →
      regexSearch ["Sponsoring Registrar".data] s = none →
      regexSearch ["Registrar Name".data] s = some cap →
      extractRegistrar (.str s) = jsTrim cap) := by
  refine ⟨fun s n cap hb hn => ?_, fun s n cap hb hn => ?_, fun s cap h1 => ?_,
    fun s cap h1 => sponsoring_implies_registrar s cap h1, fun s cap h1 h2 h3 => ?_⟩
  · simp [extractCreationDate, regexSearch_eq_some_of_first creationLabels s n cap hb hn]
  · simp [extractExpirationDate, regexSearch_eq_some_of_first expirationLabels s n cap hb hn]
  · simp [extractRegistrar, h1]
  · simp [extractRegistrar, h1, h2, h3]

/-- Witness for C4: concrete instances of all five conjuncts of the amended
claim. -/
theorem C4_leftmost_match_wins_witness :
    extractCreationDate (.str "x\nRegistration Time: A".data) = jsTrim "A".data ∧
    extractExpirationDate (.str "y\npaid-till: B".data) = jsTrim "B".data ∧
    extractRegistrar (.str "Registrar: R1".data) = jsTrim "R1".data ∧
    regexSearch ["Registrar".data] "Sponsoring Registrar: Q".data ≠ none ∧
    extractRegistrar (.str "Registrar Name: V".data) = jsTrim "V".data :=
  ⟨C4_leftmost_match_wins.1 "x\nRegistration Time: A".data 2 "A".data
      (by decide) (by decide),
   C4_leftmost_match_wins.2.1 "y\npaid-till: B".data 2 "B".data
      (by decide) (by decide),
   C4_leftmost_match_wins.2.2.1 "Registrar: R1".data "R1".data (by decide),
   C4_leftmost_match_wins.2.2.2.1 "Sponsoring Registrar: Q".data "Q".data (by decide),
   C4_leftmost_match_wins.2.2.2.2 "Registrar Name: V".data "V".data
      (by decide) (by decide) (by decide)⟩

/-! ### Helper lemmas for the handler claims -/

lemma listStarts_self_append (p t : List Char) : listStarts p (p ++ t) = true := by
  induction p with
  | nil => rfl
  | cons a ps ih => simp [listStarts, ih]

lemma subOccurs_append (p a t : List Char) : subOccurs p (a ++ (p ++ t)) = true := by
  induction a with
  | nil =>
    cases p with
    | nil =>
      cases t with
      | nil => rfl
      | cons c cs => simp [subOccurs, listStarts]
    | cons x xs =>
      have h2 := listStarts_self_append (x :: xs) t
      simp only [List.cons_append] at h2
      simp [subOccurs, h2]
  | cons x a2 ih => simp [subOccurs, ih]

/-- All the ways one `handlerV2` request can leave the cache: untouched, or
(on the success path only) with the freshly built result prepended under the
raw domain key. -/
lemma handlerV2_cache_shape (domain : JStr) (c : Cache) (env : EnvV2) :
    (handlerV2 domain c env).cache = c ∨
    ((handlerV2 domain c env).resp.status = 200 ∧
      ∃ r, (handlerV2 domain c env).cache = (domain, r) :: c) := by
  cases hg : cacheGet c domain with
  | some r => left; simp [handlerV2, hg]
  | none =>
    cases hl : env.lookup with
    | fail e =>
      cases ht : isTimeoutErr e with
      | false => left; simp [handlerV2, hg, hl, ht]
      | true => left; simp [handlerV2, hg, hl, ht]
    | ok data =>
      cases hp : env.procThrow with
      | some m => left; simp [handlerV2, hg, hl, processWhoisData, hp]
      | none =>
        right
        refine ⟨by simp [handlerV2, hg, hl, processWhoisData, hp], mkResult domain data, ?_⟩
        simp [handlerV2, hg, hl, processWhoisData, hp, cacheSet]

/-- The analogue of `handlerV2_cache_shape` for the fallback handler. -/
lemma handlerFB_cache_shape (domain : JStr) (c : Cache) (env : EnvFB) :
    (handlerFB domain c env).cache = c ∨
    ((handlerFB domain c env).resp.status = 200 ∧
      ∃ r, (handlerFB domain c env).cache = (domain, r) :: c) := by
  cases hg : cacheGet c domain with
  | some r => left; simp [handlerFB, hg]
  | none =>
    cases hl : env.lib with
    | ok data =>
      cases hp : env.procThrow with
      | some m => left; simp [handlerFB, hg, hl, processWhoisData, hp]
      | none =>
        right
        refine ⟨by simp [handlerFB, hg, hl, processWhoisData, hp], mkResult domain data, ?_⟩
        simp [handlerFB, hg, hl, processWhoisData, hp, cacheSet]
    | fail e =>
      cases hv : validForSystem domain with
      | false => left; simp [handlerFB, hg, hl, hv]
      | true =>
        cases hs : env.sys with
        | fail m st => left; simp [handlerFB, hg, hl, hv, hs]
        | ok stdoutTxt =>
          cases hp : env.procThrow with
          | some m => left; simp [handlerFB, hg, hl, hv, hs, processWhoisData, hp]
          | none =>
            right
            refine ⟨by simp [handlerFB, hg, hl, hv, hs, processWhoisData, hp],
              mkResult domain (.str stdoutTxt), ?_⟩
            simp [handlerFB, hg, hl, hv, hs, processWhoisData, hp, cacheSet]

/-! ### Claim C5 -/

/-- Claim C5: after the primary library lookup fails, a domain containing a
character outside `[a-zA-Z0-9.-]` or longer than 255 characters receives a
400 response and the system `whois` command is never invoked
(`part_001` lines 84-90). -/
theorem C5_invalid_domain_rejected (domain : JStr) (c : Cache) (env : EnvFB) (e : LibErr)
    (hmiss : cacheGet c domain = none)
    (hlib : env.lib = .fail e)
    (hbad : (∃ ch ∈ domain, isAllowedChar ch = false) ∨ domain.length > 255) :
    (handlerFB domain c env).resp.status = 400 ∧
    (handlerFB domain c env).sysInvoked = false := by
  have hval : validForSystem domain = false := by
    rcases hbad with ⟨ch, hch, hchf⟩ | hlen
    · have hall : domain.all isAllowedChar = false := by
        cases hall2 : domain.all isAllowedChar with
        | false => rfl
        | true =>
          have hmem := List.all_eq_true.mp hall2 ch hch
          rw [hchf] at hmem
          exact absurd hmem (by simp)
      simp [validForSystem, hall]
    · have hd : decide (domain.length ≤ 255) = false := decide_eq_false (by omega)
      simp [validForSystem, hd]
  refine ⟨?_, ?_⟩ <;> simp [handlerFB, hmiss, hlib, hval]

/-- Witness for C5: the domain `"bad domain!"` after a failed library lookup. -/
theorem C5_invalid_domain_rejected_witness :
    (handlerFB "bad domain!".data []
      ⟨.fail ⟨"boom".data, []⟩, .fail "x".data [], none⟩).resp.status = 400 ∧
    (handlerFB "bad domain!".data []
      ⟨.fail ⟨"boom".data, []⟩, .fail "x".data [], none⟩).sysInvoked = false :=
  C5_invalid_domain_rejected "bad domain!".data []
    ⟨.fail ⟨"boom".data, []⟩, .fail "x".data [], none⟩ ⟨"boom".data, []⟩
    rfl rfl (Or.inl ⟨'!', by decide, by decide⟩)

/-! ### Claim C6 -/

/-- Claim C6 counterexample: when both lookups fail, the response is a 500
whose JSON body has `error`, `library_error`, `system_command_error` and
`system_command_stderr` fields but no `details` field, contrary to the
claim that the diagnostic text is carried in a `details` field. -/
theorem C6_counterexample :
    (handlerFB "example.com".data []
      ⟨.fail ⟨"lib boom".data, []⟩, .fail "sys boom".data [], none⟩).resp.status = 500 ∧
    bodyHasKey (handlerFB "example.com".data []
      ⟨.fail ⟨"lib boom".data, []⟩, .fail "sys boom".data [], none⟩).resp.body "details" =
      false ∧
    bodyHasKey (handlerFB "example.com".data []
      ⟨.fail ⟨"lib boom".data, []⟩, .fail "sys boom".data [], none⟩).resp.body "error" =
      true := by
  refine ⟨by decide, by decide, by decide⟩

/-- Claim C6 (amended): when both lookups fail the endpoint responds 500
with a JSON object whose `error` field summarises the failure and whose
`library_error` and `system_command_error` fields carry the two underlying
error texts (`part_001` lines 101-106); there is no single `details` field. -/
theorem C6_both_fail_response (domain : JStr) (c : Cache) (e : LibErr)
    (m stde : JStr) (pt : Option JStr)
    (hmiss : cacheGet c domain = none)
    (hvalid : validForSystem domain = true) :
    (handlerFB domain c ⟨.fail e, .fail m stde, pt⟩).resp.status = 500 ∧
    errField (handlerFB domain c ⟨.fail e, .fail m stde, pt⟩).resp.body "error" =
      some (.jstr "WHOIS lookup failed using both library and system command".data) ∧
    errField (handlerFB domain c ⟨.fail e, .fail m stde, pt⟩).resp.body "library_error" =
      some (.jstr (libErrDetailsFB e)) ∧
    errField (handlerFB domain c ⟨.fail e, .fail m stde, pt⟩).resp.body
      "system_command_error" = some (.jstr m) ∧
    bodyHasKey (handlerFB domain c ⟨.fail e, .fail m stde, pt⟩).resp.body "details" =
      false := by
  have hshape : handlerFB domain c ⟨.fail e, .fail m stde, pt⟩ =
      ⟨⟨500, .errObj
        [("error", .jstr "WHOIS lookup failed using both library and system command".data),
         ("library_error", .jstr (libErrDetailsFB e)),
         ("system_command_error", .jstr m),
         ("system_command_stderr",
           if stde.isEmpty then .jnull else .jstr (jsTrim stde))]⟩,
       c, true, true⟩ := by
    simp [handlerFB, hmiss, hvalid]
  rw [hshape]
  refine ⟨rfl, ?_, ?_, ?_, ?_⟩ <;> simp [errField, bodyHasKey, List.find?]

/-- Witness for C6 at concrete failures. -/
theorem C6_both_fail_response_witness :
    (handlerFB "example.com".data []
      ⟨.fail ⟨"boom".data, []⟩, .fail "bang".data [], none⟩).resp.status = 500 ∧
    errField (handlerFB "example.com".data []
      ⟨.fail ⟨"boom".data, []⟩, .fail "bang".data [], none⟩).resp.body "error" =
      some (.jstr "WHOIS lookup failed using both library and system command".data) ∧
    errField (handlerFB "example.com".data []
      ⟨.fail ⟨"boom".data, []⟩, .fail "bang".data [], none⟩).resp.body "library_error" =
      some (.jstr (libErrDetailsFB ⟨"boom".data, []⟩)) ∧
    errField (handlerFB "example.com".data []
      ⟨.fail ⟨"boom".data, []⟩, .fail "bang".data [], none⟩).resp.body
      "system_command_error" = some (.jstr "bang".data) ∧
    bodyHasKey (handlerFB "example.com".data []
      ⟨.fail ⟨"boom".data, []⟩, .fail "bang".data [], none⟩).resp.body "details" = false :=
  C6_both_fail_response "example.com".data [] ⟨"boom".data, []⟩ "bang".data [] none
    rfl (by decide)

/-! ### Claim C7 -/

/-- Claim C7 counterexample: in the fallback variant — the only one with a
system-command fallback — both lookups failing with timeouts yields status
500, not 504 (`part_001` line 101). -/
theorem C7_counterexample :
    isTimeoutErr ⟨"connect timeout".data, "ETIMEDOUT".data⟩ = true ∧
    (handlerFB "example.org".data []
      ⟨.fail ⟨"connect timeout".data, "ETIMEDOUT".data⟩,
       .fail "whois: timeout".data [], none⟩).resp.status = 500 ∧
    (500 : Nat) ≠ 504 := by
  refine ⟨by decide, by decide, by decide⟩

/-- Claim C7 (amended): in the fallback variant a double failure — timeouts
included — always yields 500; only the single-lookup variant
(`whois-proxy.js` lines 70-75) maps a primary-lookup timeout to 504, with a
`details` text naming "timed out". -/
theorem C7_timeout_status :
    (∀ domain c e m st pt, cacheGet c domain = none → validForSystem domain = true →
      isTimeoutErr e = true →
      (handlerFB domain c ⟨.fail e, .fail m st, pt⟩).resp.status = 500) ∧
    (∀ domain c e pt, cacheGet c domain = none → isTimeoutErr e = true →
      (handlerV2 domain c ⟨.fail e, pt⟩).resp.status = 504 ∧
      errField (handlerV2 domain c ⟨.fail e, pt⟩).resp.body "details" =
        some (.jstr (timeoutDetailsV2 (libErrDetailsV2 e))) ∧
      subOccurs "timed out".data (timeoutDetailsV2 (libErrDetailsV2 e)) = true) := by
  constructor
  · intro domain c e m st pt hmiss hvalid ht
    simp [handlerFB, hmiss, hvalid]
  · intro domain c e pt hmiss ht
    have hshape : handlerV2 domain c ⟨.fail e, pt⟩ =
        ⟨⟨504, .errObj
          [("error", .jstr "WHOIS lookup timed out from application".data),
           ("details", .jstr (timeoutDetailsV2 (libErrDetailsV2 e)))]⟩, c, true⟩ := by
      simp [handlerV2, hmiss, ht]
    refine ⟨by rw [hshape], by rw [hshape]; simp [errField, List.find?], ?_⟩
    have hdec : ("WHOIS lookup timed out after 20000ms using options ".data : List Char) =
        "WHOIS lookup ".data ++ ("timed out".data ++ " after 20000ms using options ".data) := by
      decide
    unfold timeoutDetailsV2
    rw [hdec]
    simp only [List.append_assoc]
    exact subOccurs_append _ _ _

/-- Witness for C7: concrete instances of both conjuncts. -/
theorem C7_timeout_status_witness :
    (handlerFB "example.org".data []
      ⟨.fail ⟨"lookup timeout".data, []⟩, .fail "slow".data [], none⟩).resp.status = 500 ∧
    (handlerV2 "example.org".data []
      ⟨.fail ⟨"lookup timeout".data, []⟩, none⟩).resp.status = 504 ∧
    subOccurs "timed out".data
      (timeoutDetailsV2 (libErrDetailsV2 ⟨"lookup timeout".data, []⟩)) = true :=
  ⟨C7_timeout_status.1 "example.org".data [] ⟨"lookup timeout".data, []⟩
      "slow".data [] none rfl (by decide) (by decide),
   (C7_timeout_status.2 "example.org".data [] ⟨"lookup timeout".data, []⟩ none
      rfl (by decide)).1,
   (C7_timeout_status.2 "example.org".data [] ⟨"lookup timeout".data, []⟩ none
      rfl (by decide)).2.2⟩

/-! ### Claim C8 -/

/-- Claim C8 counterexample: a successful request for `"EXAMPLE.com"` stores
the result under the raw key `"EXAMPLE.com"`, not under the lowercase
`"example.com"`: a later get with the lowercase form misses.  The handler
never lowercases the domain (`whois-proxy.js` lines 32 and 97). -/
theorem C8_counterexample :
    cacheGet (handlerV2 "EXAMPLE.com".data []
      ⟨.ok (.str "Registrar: R".data), none⟩).cache "example.com".data = none ∧
    cacheGet (handlerV2 "EXAMPLE.com".data []
      ⟨.ok (.str "Registrar: R".data), none⟩).cache "EXAMPLE.com".data ≠ none := by
  refine ⟨by decide, by decide⟩

/-- Claim C8 (amended): cache entries are keyed by the domain string exactly
as received (case-sensitively): the pre-lookup get uses the raw domain, and
after a successful lookup the result is stored under the raw domain, leaving
every other key — including other casings — unaffected. -/
theorem C8_raw_domain_key :
    (∀ domain c env r, cacheGet c domain = some r →
      (handlerV2 domain c env).resp = ⟨200, .success r⟩) ∧
    (∀ domain c data, cacheGet c domain = none →
      cacheGet (handlerV2 domain c ⟨.ok data, none⟩).cache domain =
        some (mkResult domain data) ∧
      (∀ d2, d2 ≠ domain →
        cacheGet (handlerV2 domain c ⟨.ok data, none⟩).cache d2 = cacheGet c d2)) := by
  constructor
  · intro domain c env r h
    simp [handlerV2, h]
  · intro domain c data h
    have hshape : (handlerV2 domain c ⟨.ok data, none⟩).cache =
        (domain, mkResult domain data) :: c := by
      simp [handlerV2, h, processWhoisData, cacheSet]
    refine ⟨by rw [hshape]; simp [cacheGet], ?_⟩
    intro d2 hd2
    rw [hshape]
    simp [cacheGet, Ne.symm hd2]

/-- Witness for C8: concrete instances of both conjuncts, exhibiting the
case-sensitivity of the keys. -/
theorem C8_raw_domain_key_witness :
    (handlerV2 "A.com".data [("A.com".data, mkResult "A.com".data (.str "raw".data))]
      ⟨.ok (.str "raw".data), none⟩).resp =
      ⟨200, .success (mkResult "A.com".data (.str "raw".data))⟩ ∧
    cacheGet (handlerV2 "A.com".data [] ⟨.ok (.str "Registrar: Z".data), none⟩).cache
      "A.com".data = some (mkResult "A.com".data (.str "Registrar: Z".data)) ∧
    cacheGet (handlerV2 "A.com".data [] ⟨.ok (.str "Registrar: Z".data), none⟩).cache
      "a.com".data = cacheGet [] "a.com".data :=
  ⟨C8_raw_domain_key.1 "A.com".data
      [("A.com".data, mkResult "A.com".data (.str "raw".data))]
      ⟨.ok (.str "raw".data), none⟩ (mkResult "A.com".data (.str "raw".data)) (by decide),
   (C8_raw_domain_key.2 "A.com".data [] (.str "Registrar: Z".data) rfl).1,
   (C8_raw_domain_key.2 "A.com".data [] (.str "Registrar: Z".data) rfl).2
      "a.com".data (by decide)⟩

/-! ### Claim C9 -/

/-- Claim C9: after a first uncached request completes successfully, an
immediately following request for the same domain returns the identical
response from the cache and performs no second `whois.lookup`
(`whois-proxy.js` lines 31-36 and 89-100), whatever environment the second
request runs under. -/
theorem C9_second_request_cached (domain : JStr) (c : Cache) (data : JSValue)
    (env2 : EnvV2) (hmiss : cacheGet c domain = none) :
    (handlerV2 domain c ⟨.ok data, none⟩).resp.status = 200 ∧
    (handlerV2 domain (handlerV2 domain c ⟨.ok data, none⟩).cache env2).resp =
      (handlerV2 domain c ⟨.ok data, none⟩).resp ∧
    (handlerV2 domain (handlerV2 domain c ⟨.ok data, none⟩).cache env2).lookupInvoked =
      false := by
  have h1 : handlerV2 domain c ⟨.ok data, none⟩ =
      ⟨⟨200, .success (mkResult domain data)⟩, (domain, mkResult domain data) :: c, true⟩ := by
    simp [handlerV2, hmiss, processWhoisData, cacheSet]
  rw [h1]
  have h2 : cacheGet ((domain, mkResult domain data) :: c) domain =
      some (mkResult domain data) := by
    simp [cacheGet]
  exact ⟨rfl, by simp [handlerV2, h2], by simp [handlerV2, h2]⟩

/-- Witness for C9 at a concrete domain and response. -/
theorem C9_second_request_cached_witness :
    (handlerV2 "example.com".data [] ⟨.ok (.str "Registrar: R".data), none⟩).resp.status =
      200 ∧
    (handlerV2 "example.com".data
      (handlerV2 "example.com".data [] ⟨.ok (.str "Registrar: R".data), none⟩).cache
      ⟨.fail ⟨"down".data, []⟩, none⟩).resp =
      (handlerV2 "example.com".data [] ⟨.ok (.str "Registrar: R".data), none⟩).resp ∧
    (handlerV2 "example.com".data
      (handlerV2 "example.com".data [] ⟨.ok (.str "Registrar: R".data), none⟩).cache
      ⟨.fail ⟨"down".data, []⟩, none⟩).lookupInvoked = false :=
  C9_second_request_cached "example.com".data [] (.str "Registrar: R".data)
    ⟨.fail ⟨"down".data, []⟩, none⟩ rfl

/-! ### Claim C10 -/

/-- Claim C10: in both handler variants, any request that ends in a
non-200 response — lookup failure, invalid-domain rejection, or an
exception in the extraction `try` block — leaves the cache unchanged, and
conversely the cache changes only on a 200 success. -/
theorem C10_cache_unchanged_on_error (domain : JStr) (c : Cache)
    (envV : EnvV2) (envF : EnvFB) :
    ((handlerV2 domain c envV).resp.status ≠ 200 → (handlerV2 domain c envV).cache = c) ∧
    ((handlerV2 domain c envV).cache ≠ c → (handlerV2 domain c envV).resp.status = 200) ∧
    ((handlerFB domain c envF).resp.status ≠ 200 → (handlerFB domain c envF).cache = c) ∧
    ((handlerFB domain c envF).cache ≠ c → (handlerFB domain c envF).resp.status = 200) := by
  have hv := handlerV2_cache_shape domain c envV
  have hf := handlerFB_cache_shape domain c envF
  refine ⟨?_, ?_, ?_, ?_⟩
  · intro h
    rcases hv with hc | ⟨hs, _⟩
    · exact hc
    · exact absurd hs h
  · intro h
    rcases hv with hc | ⟨hs, _⟩
    · exact absurd hc h
    · exact hs
  · intro h
    rcases hf with hc | ⟨hs, _⟩
    · exact hc
    · exact absurd hs h
  · intro h
    rcases hf with hc | ⟨hs, _⟩
    · exact absurd hc h
    · exact hs

/-- Witness for C10: concrete error requests leave the cache empty, and a
concrete cache-changing success returns 200. -/
theorem C10_cache_unchanged_on_error_witness :
    (handlerV2 "d.com".data [] ⟨.fail ⟨"down".data, []⟩, none⟩).cache = [] ∧
    (handlerV2 "d.com".data [] ⟨.ok (.str "x".data), none⟩).resp.status = 200 ∧
    (handlerFB "bad domain!".data []
      ⟨.fail ⟨"down".data, []⟩, .fail "s".data [], none⟩).cache = [] ∧
    (handlerFB "d.com".data []
      ⟨.ok (.str "x".data), .fail "s".data [], none⟩).resp.status = 200 :=
  ⟨(C10_cache_unchanged_on_error "d.com".data [] ⟨.fail ⟨"down".data, []⟩, none⟩
      ⟨.fail ⟨"down".data, []⟩, .fail "s".data [], none⟩).1 (by decide),
   (C10_cache_unchanged_on_error "d.com".data [] ⟨.ok (.str "x".data), none⟩
      ⟨.fail ⟨"down".data, []⟩, .fail "s".data [], none⟩).2.1 (by decide),
   (C10_cache_unchanged_on_error "bad domain!".data [] ⟨.fail ⟨"down".data, []⟩, none⟩
      ⟨.fail ⟨"down".data, []⟩, .fail "s".data [], none⟩).2.2.1 (by decide),
   (C10_cache_unchanged_on_error "d.com".data [] ⟨.fail ⟨"down".data, []⟩, none⟩
      ⟨.ok (.str "x".data), .fail "s".data [], none⟩).2.2.2 (by decide)⟩

end WhoisProxy



